import Mathlib

/-!
Verification of the quantity model and combat resolution pipeline of an
arcade shoot-'em-up (sources: `quantity.rs`, `bullets_and_targets.rs`,
`main.rs`).

Numeric embedding: the game stores its quantities in `f32`. We embed the
finite floating-point values as exact rationals and keep an explicit `nan`
value, because the code's `set_base_only` branches on `is_nan()`. Arithmetic
on finite values is exact here (no rounding); all quantities live in `[0, 1]`
and the deltas the claims quantify over are finite, so overflow to infinity
cannot occur in the modelled computations. Rust `f32` comparison semantics
(`==`, `>=`, `>` are false when either side is NaN; `f32::max` ignores a NaN
argument) are modelled by `F.eqb`, `F.geb`, `F.gtb`, `F.fmax`.
-/

/-- Model of an `f32` value: an exact finite rational or NaN. -/
inductive F where
  | fin (q : ℚ)
  | nan
deriving DecidableEq

def F.add : F → F → F
  | F.fin a, F.fin b => F.fin (a + b)
  | _, _ => F.nan

def F.sub : F → F → F
  | F.fin a, F.fin b => F.fin (a - b)
  | _, _ => F.nan

def F.mul : F → F → F
  | F.fin a, F.fin b => F.fin (a * b)
  | _, _ => F.nan

def F.neg : F → F
  | F.fin a => F.fin (-a)
  | F.nan => F.nan

/-- Rust `value.is_nan()`. -/
def F.isNan : F → Bool
  | F.fin _ => false
  | F.nan => true

/-- Rust `value.clamp(0.0, 1.0)` (NaN propagates, as in `f32::clamp`). -/
def F.clamp01 : F → F
  | F.fin a => F.fin (min (max a 0) 1)
  | F.nan => F.nan

/-- Rust `f32::max`: if one argument is NaN, returns the other. -/
def F.fmax : F → F → F
  | F.fin a, F.fin b => F.fin (max a b)
  | F.fin a, F.nan => F.fin a
  | F.nan, F.fin b => F.fin b
  | F.nan, F.nan => F.nan

/-- Rust `f32` equality test: false whenever either side is NaN. -/
def F.eqb : F → F → Bool
  | F.fin a, F.fin b => decide (a = b)
  | _, _ => false

/-- Rust `f32` `>=`: false whenever either side is NaN. -/
def F.geb : F → F → Bool
  | F.fin a, F.fin b => decide (b ≤ a)
  | _, _ => false

/-- Rust `f32` `>`: false whenever either side is NaN. -/
def F.gtb : F → F → Bool
  | F.fin a, F.fin b => decide (b < a)
  | _, _ => false

/-- The value is a finite rational in the interval `[0, 1]`. -/
def F.mem01 : F → Bool
  | F.fin a => decide (0 ≤ a ∧ a ≤ 1)
  | F.nan => false

/-- `Quantity` from `quantity.rs`: a bar value with a committed base and a
pending temporary stack. -/
structure Quantity where
  base : F
  temporary_stack : F
deriving DecidableEq

def Quantity.new (value : F) : Quantity :=
  { base := value, temporary_stack := F.fin 0 }

/-- `set_base_only`, release-build semantics: a NaN value is silently
dropped (the debug build instead aborts; see `Quantity.set_base_only_debug`). -/
def Quantity.set_base_only (q : Quantity) (value : F) : Quantity :=
  if value.isNan then q
  else { q with base := value.clamp01 }

/-- `set_base_only` under `debug_assertions`: `none` models the abort on NaN. -/
def Quantity.set_base_only_debug (q : Quantity) (value : F) : Option Quantity :=
  if value.isNan then none
  else some { q with base := value.clamp01 }

def Quantity.reset_to (q : Quantity) (value : F) : Quantity :=
  let q1 := q.set_base_only value
  { q1 with temporary_stack := F.fin 0 }

def Quantity.unclamped_effective_value (q : Quantity) : F :=
  q.base.add q.temporary_stack

def Quantity.effective_value (q : Quantity) : F :=
  q.unclamped_effective_value.clamp01

def Quantity.adjust_permanent_including_temporary (q : Quantity) (delta : F) : Quantity :=
  q.reset_to (q.effective_value.add delta)

def Quantity.adjust_permanent_clearing_temporary (q : Quantity) (delta : F) : Quantity :=
  q.reset_to (q.base.add delta)

def Quantity.adjust_permanent_keeping_temporary (q : Quantity) (delta : F) : Quantity :=
  q.set_base_only (q.base.add delta)

def Quantity.adjust_permanent_keeping_temporary_absolutely (q : Quantity) (delta : F) : Quantity :=
  let q1 := q.set_base_only (q.base.add delta)
  { q1 with temporary_stack := q1.temporary_stack.sub delta }

def Quantity.adjust_temporary_and_commit_previous_temporary (q : Quantity) (delta : F) : Quantity :=
  let q1 := q.reset_to q.effective_value
  { q1 with temporary_stack := delta }

def Quantity.adjust_temporary_stacking_with_previous (q : Quantity) (delta : F) : Quantity :=
  { q with temporary_stack := q.temporary_stack.add delta }

/-- The public mutating operations of `Quantity`, for quantifying over call
sequences. -/
inductive QuantityOp where
  | adjust_permanent_including_temporary (delta : F)
  | adjust_permanent_clearing_temporary (delta : F)
  | adjust_permanent_keeping_temporary (delta : F)
  | adjust_permanent_keeping_temporary_absolutely (delta : F)
  | adjust_temporary_and_commit_previous_temporary (delta : F)
  | adjust_temporary_stacking_with_previous (delta : F)
  | reset_to (value : F)
deriving DecidableEq

def QuantityOp.arg : QuantityOp → F
  | QuantityOp.adjust_permanent_including_temporary d => d
  | QuantityOp.adjust_permanent_clearing_temporary d => d
  | QuantityOp.adjust_permanent_keeping_temporary d => d
  | QuantityOp.adjust_permanent_keeping_temporary_absolutely d => d
  | QuantityOp.adjust_temporary_and_commit_previous_temporary d => d
  | QuantityOp.adjust_temporary_stacking_with_previous d => d
  | QuantityOp.reset_to v => v

/-- The operation's argument is finite (non-NaN). -/
def QuantityOp.argFinite (op : QuantityOp) : Bool :=
  !op.arg.isNan

def Quantity.applyOp (q : Quantity) : QuantityOp → Quantity
  | QuantityOp.adjust_permanent_including_temporary d =>
      q.adjust_permanent_including_temporary d
  | QuantityOp.adjust_permanent_clearing_temporary d =>
      q.adjust_permanent_clearing_temporary d
  | QuantityOp.adjust_permanent_keeping_temporary d =>
      q.adjust_permanent_keeping_temporary d
  | QuantityOp.adjust_permanent_keeping_temporary_absolutely d =>
      q.adjust_permanent_keeping_temporary_absolutely d
  | QuantityOp.adjust_temporary_and_commit_previous_temporary d =>
      q.adjust_temporary_and_commit_previous_temporary d
  | QuantityOp.adjust_temporary_stacking_with_previous d =>
      q.adjust_temporary_stacking_with_previous d
  | QuantityOp.reset_to v => q.reset_to v

def Quantity.applyOps (q : Quantity) (ops : List QuantityOp) : Quantity :=
  ops.foldl Quantity.applyOp q

/-! Game-state and combat data model, from `main.rs` and
`bullets_and_targets.rs`. -/

/-- `Team` from `main.rs`. -/
inductive Team where
  | player
  | enemy
deriving DecidableEq

/-- `Team::should_hurt`. -/
def Team.should_hurt (self other_team : Team) : Bool :=
  other_team != self

/-- The `WinOrGameOver` sub-state from `main.rs`. -/
inductive WinOrGameOver where
  | gameOver
  | win
deriving DecidableEq

/-- Result of one run of `quantity_behaviors_system`: the three updated
quantities and the (at most one) requested state transition. -/
structure BehaviorsResult where
  coherence : Quantity
  fever : Quantity
  fervor : Quantity
  transition : Option WinOrGameOver
deriving DecidableEq

/-- `quantity_behaviors_system` from `quantity.rs`.

`f32::powf` is transcendental, so the two powers the source computes,
`2.0f32.powf(dt)` and `0.3f32.powf(dt)`, are passed in as the oracle
parameters `pow2_dt` and `pow03_dt`. The concrete claims use `dt = 1`,
where `powf(x, 1.0) = x` exactly, so `pow2_dt = 2` and `pow03_dt = 3/10`. -/
def quantity_behaviors_system (dt pow2_dt pow03_dt : ℚ)
    (coherence fever fervor : Quantity) : BehaviorsResult :=
  -- Win and lose conditions (evaluated on the values at entry).
  let transition : Option WinOrGameOver :=
    if fever.effective_value.eqb (F.fin 1) then some WinOrGameOver.gameOver
    else if fervor.base.geb (F.fin (999 / 1000)) then some WinOrGameOver.win
    else none
  -- Loss of coherence becomes permanent if not removed.
  let coherence_change := coherence.temporary_stack.mul (F.fin (pow2_dt - 1))
  let coherence := coherence.adjust_permanent_keeping_temporary_absolutely coherence_change
  -- Excess fever goes away if not committed.
  let fever := { fever with temporary_stack := fever.temporary_stack.mul (F.fin pow03_dt) }
  -- Fervor's permanent value moves towards its temporary value.
  let change := (fervor.temporary_stack.mul (F.fin (3 / 10))).mul (F.fin dt)
  let fervor := fervor.adjust_permanent_keeping_temporary_absolutely change
  -- Temporary fervor goes down linearly with a floor.
  let fervor :=
    { fervor with
      temporary_stack :=
        ((fervor.temporary_stack.sub ((F.fin (6 / 100)).mul (F.fin dt))).fmax
              (F.fin (-(1 / 10)))).fmax fervor.base.neg }
  { coherence := coherence, fever := fever, fervor := fervor, transition := transition }

/-- `fervor_is_active` from `quantity.rs`. -/
def fervor_is_active (fever coherence : Quantity) : Bool :=
  F.gtb coherence.effective_value fever.effective_value

/-- `player_health_is_fever_system` from `bullets_and_targets.rs`, for the
single player entity; returns the new health, Fever, and Fervor. -/
def player_health_is_fever_system (health : ℕ) (fever fervor : Quantity) :
    ℕ × Quantity × Quantity :=
  let damage := 255 - health
  if damage > 0 then
    let fever := fever.adjust_permanent_including_temporary (F.fin ((damage : ℚ) * (1 / 10)))
    let health := if fever.effective_value.eqb (F.fin 1) then 0 else 255
    let fervor := fervor.reset_to (F.fin 0)
    (health, fever, fervor)
  else
    (health, fever, fervor)

/-- The combat-relevant state of a potential target entity: its `Team`, the
fields of `Attackable` that the hit and death systems read or write, whether
it has a `ChildOf` relationship (both target queries filter on
`Without<ChildOf>`), and its pickup children. Cosmetic fields (sounds,
animation cooldown, transforms) are omitted. -/
structure Target where
  team : Team
  health : ℕ
  last_hit_by : Option Team
  isChild : Bool
  destruction_particle : Bool
  pickups : List ℕ
deriving DecidableEq

/-- A bullet as read by `bullet_hit_system`: its damage, team, current
collision set (from the collision oracle), and lifetime. -/
structure BulletIn where
  damage : ℕ
  team : Team
  colliding : List ℕ
  lifetime : ℚ
deriving DecidableEq

/-- Mutable state threaded through `bullet_hit_system`: the target entities
(indexed by entity id), the per-run killed set, the log of `Hurt` events
triggered, and the Coherence quantity. -/
structure HitWorld where
  targets : ℕ → Option Target
  killed : List ℕ
  hurtEvents : List ℕ
  coherence : Quantity

/-- The hit system's target query lookup: fails for entities that are not
attackable targets and for entities with `ChildOf` (the `Without<ChildOf>`
filter). -/
def hit_target_query (targets : ℕ → Option Target) (e : ℕ) : Option Target :=
  match targets e with
  | some t => if t.isChild then none else some t
  | none => none

/-- One iteration of the inner `'colliding` loop of `bullet_hit_system`.
The second component of the state is the bullet's lifetime. -/
def hit_one_collision (damage : ℕ) (bullet_team : Team) (s : HitWorld × ℚ) (e : ℕ) :
    HitWorld × ℚ :=
  let (w, lifetime) := s
  match hit_target_query w.targets e with
  | none => (w, lifetime)  -- collided but is not attackable
  | some t =>
    if bullet_team.should_hurt t.team = false then (w, lifetime)
    else if e ∈ w.killed then (w, lifetime)  -- already killed but not yet despawned
    else
      -- `u8::saturating_sub` is truncated subtraction on ℕ.
      let new_health := t.health - damage
      let w :=
        { w with
          targets := fun i =>
            if i = e then some { t with last_hit_by := some bullet_team, health := new_health }
            else w.targets i,
          hurtEvents := w.hurtEvents ++ [e],
          killed := if new_health = 0 then e :: w.killed else w.killed,
          coherence :=
            if bullet_team = Team.player then
              w.coherence.adjust_permanent_clearing_temporary (F.fin 0)
            else w.coherence }
      (w, 0)  -- cause bullet to die on the next frame

/-- Processing of one bullet by `bullet_hit_system`: folds over its current
collision set and returns the bullet with its (possibly zeroed) lifetime. -/
def hit_one_bullet (w : HitWorld) (b : BulletIn) : HitWorld × BulletIn :=
  let s := b.colliding.foldl (hit_one_collision b.damage b.team) (w, b.lifetime)
  (s.1, { b with lifetime := s.2 })

/-- `bullet_hit_system` from `bullets_and_targets.rs`: a fresh killed set,
then a fold over all bullets. Returns the final world state and the updated
bullets. -/
def bullet_hit_system (targets : ℕ → Option Target) (coherence : Quantity)
    (bullets : List BulletIn) : HitWorld × List BulletIn :=
  bullets.foldl
    (fun acc b =>
      let s := hit_one_bullet acc.1 b
      (s.1, acc.2 ++ [s.2]))
    ({ targets := targets, killed := [], hurtEvents := [], coherence := coherence }, [])

/-- Trace of the side-effect commands issued by `death_system`: pickup
children dropped, entities that spawned a particle burst, and entities
despawned. -/
structure DeathEffects where
  dropped : List ℕ
  particles : List ℕ
  despawned : List ℕ
deriving DecidableEq

/-- One iteration of `death_system`'s loop over the changed-`Attackable`
query (the query itself carries the `Without<ChildOf>` filter, modelled by
the `isChild` skip). The accumulator is the Fervor quantity plus the
side-effect trace. -/
def death_one (targets : ℕ → Option Target) (fever coherence : Quantity)
    (acc : Quantity × DeathEffects) (e : ℕ) : Quantity × DeathEffects :=
  match targets e with
  | none => acc
  | some t =>
    if t.isChild then acc
    else if t.health > 0 then acc  -- not dying
    else
      let (fervor, fx) := acc
      -- Reparent children that are pickups.
      let fx := { fx with dropped := fx.dropped ++ t.pickups }
      -- Spawn debris.
      let fx :=
        if t.destruction_particle then { fx with particles := fx.particles ++ [e] } else fx
      -- Increase fervor if the player made this kill.
      let fervor :=
        if t.last_hit_by == some Team.player && fervor_is_active fever coherence then
          let added_fervor :=
            (F.fin (301 / 10000)).add
              ((F.fin (3 / 100)).mul (fervor.temporary_stack.fmax (F.fin (2 / 5))))
          fervor.adjust_temporary_stacking_with_previous added_fervor
        else fervor
      let fx := { fx with despawned := fx.despawned ++ [e] }
      (fervor, fx)

/-- `death_system` from `bullets_and_targets.rs`, over the list of entity
ids matched by the `Changed<Attackable>` query (each live entity occurs at
most once in a query iteration). -/
def death_system (targets : ℕ → Option Target) (changed : List ℕ)
    (fever coherence fervor : Quantity) : Quantity × DeathEffects :=
  changed.foldl (death_one targets fever coherence)
    (fervor, { dropped := [], particles := [], despawned := [] })

/-! Helper lemmas about the numeric model and the quantity operations. -/

lemma clamp_q_bounds (x : ℚ) : 0 ≤ min (max x 0) 1 ∧ min (max x 0) 1 ≤ 1 :=
  ⟨le_min (le_max_right x 0) zero_le_one, min_le_right _ _⟩

lemma clamp_q_idem (x : ℚ) : min (max (min (max x 0) 1) 0) 1 = min (max x 0) 1 := by
  rw [max_eq_left (clamp_q_bounds x).1, min_eq_left (clamp_q_bounds x).2]

lemma F.clamp01_fin_mem01 (a : ℚ) : (F.clamp01 (F.fin a)).mem01 = true := by
  simp only [F.clamp01, F.mem01, decide_eq_true_eq]
  exact clamp_q_bounds a

lemma F.clamp01_clamp01 (x : F) : x.clamp01.clamp01 = x.clamp01 := by
  cases x with
  | fin a => simp [F.clamp01, clamp_q_idem]
  | nan => rfl

lemma F.mem01_elim (x : F) (h : x.mem01 = true) : ∃ a : ℚ, x = F.fin a ∧ 0 ≤ a ∧ a ≤ 1 := by
  cases x with
  | fin a =>
    simp only [F.mem01, decide_eq_true_eq] at h
    exact ⟨a, rfl, h⟩
  | nan => simp [F.mem01] at h

lemma F.notNan_elim (x : F) (h : x.isNan = false) : ∃ a : ℚ, x = F.fin a := by
  cases x with
  | fin a => exact ⟨a, rfl⟩
  | nan => simp [F.isNan] at h

lemma F.sub_fin_notNan (x : F) (r : ℚ) (h : x.isNan = false) :
    (x.sub (F.fin r)).isNan = false := by
  obtain ⟨a, rfl⟩ := F.notNan_elim x h
  rfl

lemma F.add_fin_notNan (x : F) (r : ℚ) (h : x.isNan = false) :
    (x.add (F.fin r)).isNan = false := by
  obtain ⟨a, rfl⟩ := F.notNan_elim x h
  rfl

/-- Invariant carried by a well-formed `Quantity`: the base is a finite value
in `[0, 1]` and the temporary stack is finite. -/
def QuantityInv (q : Quantity) : Prop :=
  q.base.mem01 = true ∧ q.temporary_stack.isNan = false

lemma quantityInv_new (v : ℚ) (h0 : 0 ≤ v) (h1 : v ≤ 1) :
    QuantityInv (Quantity.new (F.fin v)) := by
  constructor
  · simp only [Quantity.new, F.mem01, decide_eq_true_eq]
    exact ⟨h0, h1⟩
  · rfl

lemma set_base_only_base_mem01 (q : Quantity) (v : F) (hq : q.base.mem01 = true) :
    ((q.set_base_only v).base).mem01 = true := by
  cases v with
  | fin a => simpa [Quantity.set_base_only, F.isNan] using F.clamp01_fin_mem01 a
  | nan => simpa [Quantity.set_base_only, F.isNan] using hq

lemma set_base_only_stack (q : Quantity) (v : F) :
    (q.set_base_only v).temporary_stack = q.temporary_stack := by
  cases v <;> simp [Quantity.set_base_only, F.isNan]

lemma reset_to_base_mem01 (q : Quantity) (v : F) (hq : q.base.mem01 = true) :
    ((q.reset_to v).base).mem01 = true :=
  set_base_only_base_mem01 q v hq

lemma quantityInv_applyOp (q : Quantity) (op : QuantityOp) (hq : QuantityInv q)
    (hop : op.argFinite = true) : QuantityInv (q.applyOp op) := by
  obtain ⟨hb, ht⟩ := hq
  cases op with
  | adjust_permanent_including_temporary d =>
    exact ⟨reset_to_base_mem01 q _ hb, rfl⟩
  | adjust_permanent_clearing_temporary d =>
    exact ⟨reset_to_base_mem01 q _ hb, rfl⟩
  | adjust_permanent_keeping_temporary d =>
    refine ⟨set_base_only_base_mem01 q _ hb, ?_⟩
    show ((q.set_base_only (q.base.add d)).temporary_stack).isNan = false
    rw [set_base_only_stack]
    exact ht
  | adjust_permanent_keeping_temporary_absolutely d =>
    obtain ⟨r, rfl⟩ : ∃ r : ℚ, d = F.fin r := by
      cases d with
      | fin r => exact ⟨r, rfl⟩
      | nan => simp [QuantityOp.argFinite, QuantityOp.arg, F.isNan] at hop
    refine ⟨set_base_only_base_mem01 q _ hb, ?_⟩
    show (((q.set_base_only (q.base.add (F.fin r))).temporary_stack).sub (F.fin r)).isNan = false
    rw [set_base_only_stack]
    exact F.sub_fin_notNan _ r ht
  | adjust_temporary_and_commit_previous_temporary d =>
    obtain ⟨r, rfl⟩ : ∃ r : ℚ, d = F.fin r := by
      cases d with
      | fin r => exact ⟨r, rfl⟩
      | nan => simp [QuantityOp.argFinite, QuantityOp.arg, F.isNan] at hop
    exact ⟨reset_to_base_mem01 q _ hb, rfl⟩
  | adjust_temporary_stacking_with_previous d =>
    obtain ⟨r, rfl⟩ : ∃ r : ℚ, d = F.fin r := by
      cases d with
      | fin r => exact ⟨r, rfl⟩
      | nan => simp [QuantityOp.argFinite, QuantityOp.arg, F.isNan] at hop
    exact ⟨hb, F.add_fin_notNan _ r ht⟩
  | reset_to v =>
    exact ⟨reset_to_base_mem01 q _ hb, rfl⟩

lemma quantityInv_applyOps (ops : List QuantityOp) (q : Quantity) (hq : QuantityInv q)
    (hops : ∀ op ∈ ops, op.argFinite = true) : QuantityInv (q.applyOps ops) := by
  induction ops generalizing q with
  | nil => exact hq
  | cons op rest ih =>
    exact ih (q.applyOp op)
      (quantityInv_applyOp q op hq (hops op (List.mem_cons_self op rest)))
      (fun o ho => hops o (List.mem_cons_of_mem op ho))

lemma effective_mem01_of_inv (q : Quantity) (hq : QuantityInv q) :
    q.effective_value.mem01 = true := by
  obtain ⟨b, hb, _, _⟩ := F.mem01_elim q.base hq.1
  obtain ⟨t, ht⟩ := F.notNan_elim q.temporary_stack hq.2
  simp [Quantity.effective_value, Quantity.unclamped_effective_value, hb, ht, F.add,
    F.clamp01_fin_mem01]

/-- C1 (counterexample): `Quantity::new` stores its argument without
clamping, so a quantity created from the finite value `2` still has
`base = 2 ∉ [0, 1]` after a mutation with a finite delta (the stack-only
operation never rewrites the base). -/
theorem c1_counterexample :
    ((Quantity.new (F.fin 2)).applyOps
        [QuantityOp.adjust_temporary_stacking_with_previous (F.fin 0)]).base = F.fin 2
    ∧ (F.fin 2).mem01 = false
    ∧ (F.fin 2).isNan = false
    ∧ (QuantityOp.adjust_temporary_stacking_with_previous (F.fin 0)).argFinite = true := by
  refine ⟨rfl, by decide, rfl, rfl⟩

/-- C1 (amended): for every `Quantity` created by `Quantity::new` with a
value in `[0, 1]`, and every finite sequence of `adjust_*`/`reset_to` calls
with finite (non-NaN) arguments, after every prefix of the sequence the
`base` field is in `[0, 1]` and `effective_value()` is in `[0, 1]`. -/
theorem c1_clamp_invariant (v : ℚ) (hv0 : 0 ≤ v) (hv1 : v ≤ 1)
    (ops : List QuantityOp) (hops : ∀ op ∈ ops, op.argFinite = true) (i : ℕ) :
    (((Quantity.new (F.fin v)).applyOps (ops.take i)).base).mem01 = true ∧
    (((Quantity.new (F.fin v)).applyOps (ops.take i)).effective_value).mem01 = true := by
  have hinv : QuantityInv ((Quantity.new (F.fin v)).applyOps (ops.take i)) :=
    quantityInv_applyOps (ops.take i) _ (quantityInv_new v hv0 hv1)
      (fun op hop => hops op (List.take_subset i ops hop))
  exact ⟨hinv.1, effective_mem01_of_inv _ hinv⟩

/-- C1 (witness): a concrete run of the invariant, starting at `1/2` and
applying a stack increase then a large negative permanent adjustment. -/
theorem c1_clamp_invariant_witness :
    (((Quantity.new (F.fin (1/2))).applyOps
        (([QuantityOp.adjust_temporary_stacking_with_previous (F.fin (3/2)),
           QuantityOp.adjust_permanent_including_temporary (F.fin (-2))]).take 2)).base).mem01
        = true ∧
    (((Quantity.new (F.fin (1/2))).applyOps
        (([QuantityOp.adjust_temporary_stacking_with_previous (F.fin (3/2)),
           QuantityOp.adjust_permanent_including_temporary (F.fin (-2))]).take 2)).effective_value).mem01
        = true :=
  c1_clamp_invariant (1/2) (by norm_num) (by norm_num)
    [QuantityOp.adjust_temporary_stacking_with_previous (F.fin (3/2)),
     QuantityOp.adjust_permanent_including_temporary (F.fin (-2))]
    (by decide) 2

/-- C2 (confirmed): two consecutive `adjust_temporary_and_commit_previous_temporary`
calls fold the first call's temporary value into the base: for any starting
state, the base after the second call is `clamp(base_before + d1, 0, 1)`
(where `base_before` is the base just before the second call) and the
temporary stack afterwards is `d2`. -/
theorem c2_commit_semantics (q : Quantity) (d1 d2 : ℚ) :
    ((q.adjust_temporary_and_commit_previous_temporary
          (F.fin d1)).adjust_temporary_and_commit_previous_temporary (F.fin d2)).base
      = ((q.adjust_temporary_and_commit_previous_temporary (F.fin d1)).base.add
          (F.fin d1)).clamp01
    ∧ ((q.adjust_temporary_and_commit_previous_temporary
          (F.fin d1)).adjust_temporary_and_commit_previous_temporary (F.fin d2)).temporary_stack
      = F.fin d2 := by
  obtain ⟨qb, qt⟩ := q
  cases qb <;> cases qt <;>
    simp [Quantity.adjust_temporary_and_commit_previous_temporary, Quantity.reset_to,
      Quantity.set_base_only, Quantity.effective_value, Quantity.unclamped_effective_value,
      F.add, F.clamp01, F.isNan, clamp_q_idem]

/-- Shorthand for the long simp set that evaluates the quantity model on
concrete inputs. -/
lemma F.fin_ne_iff (a b : ℚ) : F.fin a ≠ F.fin b ↔ a ≠ b := by simp

/-- C9 (counterexample): in release builds, `reset_to(NaN)` drops only the
base write; it still clears the temporary stack, so the quantity's state is
not left entirely unchanged. -/
theorem c9_counterexample :
    ((Quantity.mk (F.fin (1/2)) (F.fin (1/2))).reset_to F.nan).base = F.fin (1/2)
    ∧ ((Quantity.mk (F.fin (1/2)) (F.fin (1/2))).reset_to F.nan).temporary_stack = F.fin 0
    ∧ ((Quantity.mk (F.fin (1/2)) (F.fin (1/2))).reset_to F.nan).temporary_stack
        ≠ (Quantity.mk (F.fin (1/2)) (F.fin (1/2))).temporary_stack
    ∧ F.isNan F.nan = true := by
  refine ⟨rfl, rfl, ?_, rfl⟩
  norm_num [Quantity.reset_to, Quantity.set_base_only, F.isNan]

/-- C9 (amended): a NaN computed base value makes the release build drop the
base write only — the `base` field is left unchanged, but the operation's
stack updates still apply (`set_base_only` alone leaves the state unchanged;
`reset_to` still clears the stack; `adjust_permanent_keeping_temporary_absolutely`
still subtracts the delta, leaving a NaN stack). In debug builds the write
aborts the program. -/
theorem c9_nan_mutation (q : Quantity) (value : F) (h : value.isNan = true) :
    q.set_base_only value = q
    ∧ (q.reset_to value).base = q.base
    ∧ (q.reset_to value).temporary_stack = F.fin 0
    ∧ (q.adjust_permanent_keeping_temporary_absolutely value).base = q.base
    ∧ (q.adjust_permanent_keeping_temporary_absolutely value).temporary_stack = F.nan
    ∧ q.set_base_only_debug value = none := by
  cases value with
  | fin a => simp [F.isNan] at h
  | nan =>
    cases hb : q.base <;> cases ht : q.temporary_stack <;>
      simp [Quantity.set_base_only, Quantity.set_base_only_debug, Quantity.reset_to,
        Quantity.adjust_permanent_keeping_temporary_absolutely, F.add, F.sub, F.isNan,
        hb, ht]

/-- C9 (witness): the amended NaN behavior at a concrete state. -/
theorem c9_nan_mutation_witness :
    (Quantity.mk (F.fin 0) (F.fin 1)).set_base_only F.nan = Quantity.mk (F.fin 0) (F.fin 1)
    ∧ ((Quantity.mk (F.fin 0) (F.fin 1)).reset_to F.nan).base = (Quantity.mk (F.fin 0) (F.fin 1)).base
    ∧ ((Quantity.mk (F.fin 0) (F.fin 1)).reset_to F.nan).temporary_stack = F.fin 0
    ∧ ((Quantity.mk (F.fin 0) (F.fin 1)).adjust_permanent_keeping_temporary_absolutely F.nan).base
        = (Quantity.mk (F.fin 0) (F.fin 1)).base
    ∧ ((Quantity.mk (F.fin 0) (F.fin 1)).adjust_permanent_keeping_temporary_absolutely F.nan).temporary_stack
        = F.nan
    ∧ (Quantity.mk (F.fin 0) (F.fin 1)).set_base_only_debug F.nan = none :=
  c9_nan_mutation (Quantity.mk (F.fin 0) (F.fin 1)) F.nan rfl

/-- C5 (counterexample): the win/lose check in `quantity_behaviors_system`
runs before the decay laws, not after them. With Fever at
`base = 0.9, temporary_stack = 0.1` the check fires game-over from the
pre-decay effective value `1.0`, even though after this tick's decay the
fever effective value is `0.93 ≠ 1.0` and the fervor base stays below the
win threshold — so a check placed after the decay laws would fire no
transition at all. -/
theorem c5_counterexample :
    (quantity_behaviors_system 1 2 (3/10)
        (Quantity.mk (F.fin 0) (F.fin 0))
        (Quantity.mk (F.fin (9/10)) (F.fin (1/10)))
        (Quantity.mk (F.fin 0) (F.fin 0))).transition = some WinOrGameOver.gameOver
    ∧ ((quantity_behaviors_system 1 2 (3/10)
        (Quantity.mk (F.fin 0) (F.fin 0))
        (Quantity.mk (F.fin (9/10)) (F.fin (1/10)))
        (Quantity.mk (F.fin 0) (F.fin 0))).fever).effective_value ≠ F.fin 1
    ∧ ((quantity_behaviors_system 1 2 (3/10)
        (Quantity.mk (F.fin 0) (F.fin 0))
        (Quantity.mk (F.fin (9/10)) (F.fin (1/10)))
        (Quantity.mk (F.fin 0) (F.fin 0))).fervor).base.geb (F.fin (999/1000)) = false := by
  refine ⟨?_, ?_, ?_⟩ <;>
    norm_num [quantity_behaviors_system, Quantity.effective_value,
      Quantity.unclamped_effective_value, Quantity.adjust_permanent_keeping_temporary_absolutely,
      Quantity.set_base_only, F.add, F.mul, F.sub, F.neg, F.fmax, F.eqb, F.geb, F.isNan,
      F.clamp01, min_def, max_def]

lemma F.eqb_fin_true_iff (x : F) (a : ℚ) : x.eqb (F.fin a) = true ↔ x = F.fin a := by
  cases x <;> simp [F.eqb]

lemma F.geb_fin_true_iff (x : F) (a : ℚ) :
    x.geb (F.fin a) = true ↔ ∃ b : ℚ, x = F.fin b ∧ a ≤ b := by
  cases x with
  | fin b => simp [F.geb]
  | nan => simp [F.geb]

/-- C5 (amended): the win/lose check runs at the start of
`quantity_behaviors_system`, before this tick's decay laws, on the entry
values of the quantities: it requests the terminal game-over state exactly
when Fever's pre-decay effective value is `1.0`, and the terminal win state
exactly when that is not the case and Fervor's pre-decay base is `≥ 0.999`
(so the fever check short-circuits the fervor check and at most one
transition fires per tick). -/
theorem c5_win_lose_check (dt pow2_dt pow03_dt : ℚ) (coherence fever fervor : Quantity) :
    ((quantity_behaviors_system dt pow2_dt pow03_dt coherence fever fervor).transition
        = some WinOrGameOver.gameOver ↔ fever.effective_value = F.fin 1)
    ∧ ((quantity_behaviors_system dt pow2_dt pow03_dt coherence fever fervor).transition
        = some WinOrGameOver.win ↔
        (fever.effective_value ≠ F.fin 1 ∧ ∃ b : ℚ, fervor.base = F.fin b ∧ 999/1000 ≤ b)) := by
  have hT : (quantity_behaviors_system dt pow2_dt pow03_dt coherence fever fervor).transition
      = (if fever.effective_value.eqb (F.fin 1) then some WinOrGameOver.gameOver
         else if fervor.base.geb (F.fin (999/1000)) then some WinOrGameOver.win
         else none) := rfl
  by_cases h1 : fever.effective_value.eqb (F.fin 1) = true
  · have he : fever.effective_value = F.fin 1 := (F.eqb_fin_true_iff _ _).mp h1
    rw [hT, if_pos h1]
    exact ⟨by simp [he], by simp [he]⟩
  · have he : fever.effective_value ≠ F.fin 1 :=
      fun hx => h1 ((F.eqb_fin_true_iff _ _).mpr hx)
    rw [hT, if_neg h1]
    by_cases h2 : fervor.base.geb (F.fin (999/1000)) = true
    · have hg := (F.geb_fin_true_iff _ _).mp h2
      rw [if_pos h2]
      exact ⟨by simp [he], by simp [he, hg]⟩
    · have hg : ¬ ∃ b : ℚ, fervor.base = F.fin b ∧ 999/1000 ≤ b :=
        fun hx => h2 ((F.geb_fin_true_iff _ _).mpr hx)
      rw [if_neg h2]
      exact ⟨by simp [he], by simp [hg]⟩

/-- C7 (confirmed): for Coherence at `base = 0.5`, `temporary_stack = -0.2`,
one run of the decay law with `dt = 1` and `K = 2` (where `powf` is exact:
`2^1 = 2`) computes `change = temporary_stack * (K^dt - 1) = -0.2` and
applies it via `adjust_permanent_keeping_temporary_absolutely`, yielding
`base = 0.3` and `temporary_stack = 0`: the pending loss is fully committed
in one full-second step. (In the exact-rational embedding the resulting base
is exactly `3/10`, which in `f32` is the value nearest `0.3`.) -/
theorem c7_coherence_decay_scenario :
    (quantity_behaviors_system 1 2 (3/10)
        (Quantity.mk (F.fin (1/2)) (F.fin (-(1/5))))
        (Quantity.mk (F.fin (1/2)) (F.fin 0))
        (Quantity.mk (F.fin 0) (F.fin 0))).coherence
      = Quantity.mk (F.fin (3/10)) (F.fin 0)
    ∧ (F.fin (-(1/5))).mul (F.fin (2 - 1)) = F.fin (-(1/5)) := by
  constructor <;>
    norm_num [quantity_behaviors_system, Quantity.adjust_permanent_keeping_temporary_absolutely,
      Quantity.set_base_only, F.add, F.mul, F.sub, F.isNan, F.clamp01, min_def, max_def]

/-- C6 (confirmed): every tick, if the player's health is below `u8::MAX`,
`player_health_is_fever_system` adds `damage * 0.1` (with
`damage = 255 - health`) to Fever via `adjust_permanent_including_temporary`;
afterwards health is forced to `0` if Fever's effective value is now exactly
`1.0` and reset to `255` otherwise, and Fervor is reset to `0` in either
case. If health equals `255`, nothing changes. -/
theorem c6_player_health_is_fever (health : ℕ) (fever fervor : Quantity)
    (hle : health ≤ 255) (hfin : fever.effective_value.isNan = false) :
    (health < 255 →
      player_health_is_fever_system health fever fervor =
        ((if ((fever.effective_value.add
                (F.fin (((255 - health : ℕ) : ℚ) * (1 / 10)))).clamp01).eqb (F.fin 1)
            then (0 : ℕ) else 255),
         Quantity.mk ((fever.effective_value.add
                (F.fin (((255 - health : ℕ) : ℚ) * (1 / 10)))).clamp01) (F.fin 0),
         Quantity.mk (F.fin 0) (F.fin 0)))
    ∧ (health = 255 → player_health_is_fever_system health fever fervor
        = (health, fever, fervor)) := by
  obtain ⟨e, he⟩ := F.notNan_elim _ hfin
  constructor
  · intro hlt
    have hd : 0 < 255 - health := Nat.sub_pos_of_lt hlt
    have hadj : fever.adjust_permanent_including_temporary
        (F.fin (((255 - health : ℕ) : ℚ) * (1 / 10)))
        = Quantity.mk ((fever.effective_value.add
            (F.fin (((255 - health : ℕ) : ℚ) * (1 / 10)))).clamp01) (F.fin 0) := by
      simp only [Quantity.adjust_permanent_including_temporary, Quantity.reset_to,
        Quantity.set_base_only, he, F.add, F.isNan, Bool.false_eq_true, if_false]
    have heff2 : (Quantity.mk ((fever.effective_value.add
            (F.fin (((255 - health : ℕ) : ℚ) * (1 / 10)))).clamp01) (F.fin 0)).effective_value
        = (fever.effective_value.add
            (F.fin (((255 - health : ℕ) : ℚ) * (1 / 10)))).clamp01 := by
      rw [he]
      simp only [Quantity.effective_value, Quantity.unclamped_effective_value, F.add,
        F.clamp01, add_zero, clamp_q_idem]
    have hfz : fervor.reset_to (F.fin 0) = Quantity.mk (F.fin 0) (F.fin 0) := by
      have : min (max (0 : ℚ) 0) 1 = 0 := by norm_num
      cases fervor
      simp [Quantity.reset_to, Quantity.set_base_only, F.isNan, F.clamp01, this]
    simp only [player_health_is_fever_system, gt_iff_lt, if_pos hd]
    rw [hadj, heff2, hfz]
  · intro h255
    subst h255
    simp [player_health_is_fever_system]

/-- C6 (witness): a player at health 245 (damage 10) pushes Fever from
effective value `0.5` by `1.0`, clamping to exactly `1.0`, so health is
forced to `0` and Fervor is reset. -/
theorem c6_player_health_is_fever_witness :
    (245 < 255 →
      player_health_is_fever_system 245 (Quantity.mk (F.fin (1/2)) (F.fin 0))
          (Quantity.mk (F.fin (1/4)) (F.fin (1/4))) =
        ((if (((Quantity.mk (F.fin (1/2)) (F.fin 0)).effective_value.add
                (F.fin (((255 - 245 : ℕ) : ℚ) * (1 / 10)))).clamp01).eqb (F.fin 1)
            then (0 : ℕ) else 255),
         Quantity.mk (((Quantity.mk (F.fin (1/2)) (F.fin 0)).effective_value.add
                (F.fin (((255 - 245 : ℕ) : ℚ) * (1 / 10)))).clamp01) (F.fin 0),
         Quantity.mk (F.fin 0) (F.fin 0)))
    ∧ (245 = 255 → player_health_is_fever_system 245 (Quantity.mk (F.fin (1/2)) (F.fin 0))
          (Quantity.mk (F.fin (1/4)) (F.fin (1/4)))
        = (245, Quantity.mk (F.fin (1/2)) (F.fin 0), Quantity.mk (F.fin (1/4)) (F.fin (1/4)))) :=
  c6_player_health_is_fever 245 (Quantity.mk (F.fin (1/2)) (F.fin 0))
    (Quantity.mk (F.fin (1/4)) (F.fin (1/4))) (by decide) rfl

/-- C8 (amended): in the death sweep, a dying entity whose `last_hit_by`
is the player's team and for which the fervor gating condition holds
(Coherence's effective value strictly exceeds Fever's) credits Fervor by
`0.0301 + 0.03 * max(temporary_stack, 0.4)` via the pure stacking operation
`adjust_temporary_stacking_with_previous` — not the commit-and-stack
operation — so the base is left unchanged; no credit occurs when
`last_hit_by` is not the player or the gating condition fails. -/
theorem c8_fervor_credit (targets : ℕ → Option Target) (fever coherence fervor : Quantity)
    (fx : DeathEffects) (e : ℕ) (t : Target)
    (ht : targets e = some t) (hchild : t.isChild = false) (hdead : t.health = 0) :
    (t.last_hit_by = some Team.player → fervor_is_active fever coherence = true →
      (death_one targets fever coherence (fervor, fx) e).1
          = fervor.adjust_temporary_stacking_with_previous
              ((F.fin (301/10000)).add
                ((F.fin (3/100)).mul (fervor.temporary_stack.fmax (F.fin (2/5)))))
        ∧ (death_one targets fever coherence (fervor, fx) e).1.base = fervor.base
        ∧ ∀ s : ℚ, fervor.temporary_stack = F.fin s →
            (death_one targets fever coherence (fervor, fx) e).1.temporary_stack
              = F.fin (s + (301/10000 + 3/100 * max s (2/5))))
    ∧ ((t.last_hit_by ≠ some Team.player ∨ fervor_is_active fever coherence = false) →
      (death_one targets fever coherence (fervor, fx) e).1 = fervor) := by
  constructor
  · intro hp ha
    have hcond : (t.last_hit_by == some Team.player && fervor_is_active fever coherence) = true := by
      simp [hp, ha]
    refine ⟨?_, ?_, ?_⟩
    · simp [death_one, ht, hchild, hdead, hcond]
    · simp [death_one, ht, hchild, hdead, hcond,
        Quantity.adjust_temporary_stacking_with_previous]
    · intro s hs
      simp [death_one, ht, hchild, hdead, hcond,
        Quantity.adjust_temporary_stacking_with_previous, hs, F.add, F.mul, F.fmax]
  · intro hor
    have hcond : (t.last_hit_by == some Team.player && fervor_is_active fever coherence) = false := by
      rcases hor with hne | hfa
      · simp [hne]
      · simp [hfa]
    simp [death_one, ht, hchild, hdead, hcond]

/-- C8 (witness): a concrete enemy kill attributed to the player, with the
gating condition true (Coherence effective 1 > Fever effective 0), credits
Fervor once by the stacking operation. -/
theorem c8_fervor_credit_witness :
    ((Target.mk Team.enemy 0 (some Team.player) false true [3]).last_hit_by = some Team.player →
      fervor_is_active (Quantity.mk (F.fin 0) (F.fin 0)) (Quantity.mk (F.fin 1) (F.fin 0)) = true →
      (death_one
          (fun i => if i = 7 then some (Target.mk Team.enemy 0 (some Team.player) false true [3])
            else none)
          (Quantity.mk (F.fin 0) (F.fin 0)) (Quantity.mk (F.fin 1) (F.fin 0))
          (Quantity.mk (F.fin 0) (F.fin 0), DeathEffects.mk [] [] []) 7).1
          = (Quantity.mk (F.fin 0) (F.fin 0)).adjust_temporary_stacking_with_previous
              ((F.fin (301/10000)).add
                ((F.fin (3/100)).mul
                  ((Quantity.mk (F.fin 0) (F.fin 0)).temporary_stack.fmax (F.fin (2/5)))))
        ∧ (death_one
            (fun i => if i = 7 then some (Target.mk Team.enemy 0 (some Team.player) false true [3])
              else none)
            (Quantity.mk (F.fin 0) (F.fin 0)) (Quantity.mk (F.fin 1) (F.fin 0))
            (Quantity.mk (F.fin 0) (F.fin 0), DeathEffects.mk [] [] []) 7).1.base
            = (Quantity.mk (F.fin 0) (F.fin 0)).base
        ∧ ∀ s : ℚ, (Quantity.mk (F.fin 0) (F.fin 0)).temporary_stack = F.fin s →
            (death_one
              (fun i => if i = 7 then some (Target.mk Team.enemy 0 (some Team.player) false true [3])
                else none)
              (Quantity.mk (F.fin 0) (F.fin 0)) (Quantity.mk (F.fin 1) (F.fin 0))
              (Quantity.mk (F.fin 0) (F.fin 0), DeathEffects.mk [] [] []) 7).1.temporary_stack
              = F.fin (s + (301/10000 + 3/100 * max s (2/5))))
    ∧ (((Target.mk Team.enemy 0 (some Team.player) false true [3]).last_hit_by ≠ some Team.player
        ∨ fervor_is_active (Quantity.mk (F.fin 0) (F.fin 0)) (Quantity.mk (F.fin 1) (F.fin 0)) = false) →
      (death_one
          (fun i => if i = 7 then some (Target.mk Team.enemy 0 (some Team.player) false true [3])
            else none)
          (Quantity.mk (F.fin 0) (F.fin 0)) (Quantity.mk (F.fin 1) (F.fin 0))
          (Quantity.mk (F.fin 0) (F.fin 0), DeathEffects.mk [] [] []) 7).1
        = Quantity.mk (F.fin 0) (F.fin 0)) :=
  c8_fervor_credit
    (fun i => if i = 7 then some (Target.mk Team.enemy 0 (some Team.player) false true [3]) else none)
    (Quantity.mk (F.fin 0) (F.fin 0)) (Quantity.mk (F.fin 1) (F.fin 0))
    (Quantity.mk (F.fin 0) (F.fin 0)) (DeathEffects.mk [] [] []) 7
    (Target.mk Team.enemy 0 (some Team.player) false true [3]) rfl rfl rfl

/-- C8 (counterexample): the Fervor credit is not applied via the
commit-and-stack operation `adjust_temporary_and_commit_previous_temporary`.
At a concrete player kill with gating true and Fervor at
`base = 0, temporary_stack = 0.5`, the death sweep adds the credit amount
onto the existing stack (`adjust_temporary_stacking_with_previous`),
leaving the base at 0 — whereas the commit-and-stack operation would first
fold the pending `0.5` into the base. The two results differ. -/
theorem c8_counterexample :
    (death_one
        (fun i => if i = 7 then some (Target.mk Team.enemy 0 (some Team.player) false true [3])
          else none)
        (Quantity.mk (F.fin 0) (F.fin 0)) (Quantity.mk (F.fin 1) (F.fin 0))
        (Quantity.mk (F.fin 0) (F.fin (1/2)), DeathEffects.mk [] [] []) 7).1
      = (Quantity.mk (F.fin 0) (F.fin (1/2))).adjust_temporary_stacking_with_previous
          ((F.fin (301/10000)).add
            ((F.fin (3/100)).mul
              ((Quantity.mk (F.fin 0) (F.fin (1/2))).temporary_stack.fmax (F.fin (2/5)))))
    ∧ (death_one
        (fun i => if i = 7 then some (Target.mk Team.enemy 0 (some Team.player) false true [3])
          else none)
        (Quantity.mk (F.fin 0) (F.fin 0)) (Quantity.mk (F.fin 1) (F.fin 0))
        (Quantity.mk (F.fin 0) (F.fin (1/2)), DeathEffects.mk [] [] []) 7).1
      ≠ (Quantity.mk (F.fin 0) (F.fin (1/2))).adjust_temporary_and_commit_previous_temporary
          ((F.fin (301/10000)).add
            ((F.fin (3/100)).mul
              ((Quantity.mk (F.fin 0) (F.fin (1/2))).temporary_stack.fmax (F.fin (2/5)))))
    ∧ (death_one
        (fun i => if i = 7 then some (Target.mk Team.enemy 0 (some Team.player) false true [3])
          else none)
        (Quantity.mk (F.fin 0) (F.fin 0)) (Quantity.mk (F.fin 1) (F.fin 0))
        (Quantity.mk (F.fin 0) (F.fin (1/2)), DeathEffects.mk [] [] []) 7).1.base
      = (Quantity.mk (F.fin 0) (F.fin (1/2))).base
    ∧ ((Quantity.mk (F.fin 0) (F.fin (1/2))).adjust_temporary_and_commit_previous_temporary
          ((F.fin (301/10000)).add
            ((F.fin (3/100)).mul
              ((Quantity.mk (F.fin 0) (F.fin (1/2))).temporary_stack.fmax (F.fin (2/5)))))).base
      ≠ (Quantity.mk (F.fin 0) (F.fin (1/2))).base := by
  refine ⟨?_, ?_, ?_, ?_⟩ <;>
    norm_num [death_one, fervor_is_active, Quantity.effective_value,
      Quantity.unclamped_effective_value, Quantity.adjust_temporary_stacking_with_previous,
      Quantity.adjust_temporary_and_commit_previous_temporary, Quantity.reset_to,
      Quantity.set_base_only, F.add, F.mul, F.fmax, F.gtb, F.clamp01, F.isNan,
      min_def, max_def, Quantity.mk.injEq]

/-! Helper lemmas for reasoning about the hit-resolution fold. -/

lemma hit_target_query_some (targets : ℕ → Option Target) (e : ℕ) (t : Target)
    (ht : targets e = some t) (hchild : t.isChild = false) :
    hit_target_query targets e = some t := by
  simp [hit_target_query, ht, hchild]

lemma hit_one_collision_applies (d : ℕ) (tm : Team) (w : HitWorld) (lt0 : ℚ) (e : ℕ)
    (t : Target) (ht : hit_target_query w.targets e = some t)
    (hsh : tm.should_hurt t.team = true) (hk : e ∉ w.killed) :
    hit_one_collision d tm (w, lt0) e =
      ({ targets := fun i =>
            if i = e then some { t with last_hit_by := some tm, health := t.health - d }
            else w.targets i,
         killed := if t.health - d = 0 then e :: w.killed else w.killed,
         hurtEvents := w.hurtEvents ++ [e],
         coherence :=
           if tm = Team.player then w.coherence.adjust_permanent_clearing_temporary (F.fin 0)
           else w.coherence }, 0) := by
  simp [hit_one_collision, ht, hsh, hk]

lemma hit_one_collision_skip_killed (d : ℕ) (tm : Team) (w : HitWorld) (lt0 : ℚ) (e : ℕ)
    (t : Target) (ht : hit_target_query w.targets e = some t)
    (hk : e ∈ w.killed) :
    hit_one_collision d tm (w, lt0) e = (w, lt0) := by
  by_cases hsh : tm.should_hurt t.team = true
  · simp [hit_one_collision, ht, hsh, hk]
  · simp only [Bool.not_eq_true] at hsh
    simp [hit_one_collision, ht, hsh]

lemma hit_one_collision_skip_query (d : ℕ) (tm : Team) (w : HitWorld) (lt0 : ℚ) (e : ℕ)
    (ht : hit_target_query w.targets e = none) :
    hit_one_collision d tm (w, lt0) e = (w, lt0) := by
  simp [hit_one_collision, ht]

/-- C4 (counterexample): a bullet whose collision set holds two valid enemy
targets hits both of them in the same tick — after the first applied hit,
further colliding entities are still evaluated (both got `Hurt` events and
damage), while the bullet's lifetime is indeed forced to 0. -/
theorem c4_counterexample :
    ((bullet_hit_system
        (fun i => if i = 0 then some (Target.mk Team.enemy 5 none false false [])
          else if i = 1 then some (Target.mk Team.enemy 5 none false false []) else none)
        (Quantity.mk (F.fin 0) (F.fin 0))
        [BulletIn.mk 1 Team.player [0, 1] 2]).1).hurtEvents = [0, 1]
    ∧ ((bullet_hit_system
        (fun i => if i = 0 then some (Target.mk Team.enemy 5 none false false [])
          else if i = 1 then some (Target.mk Team.enemy 5 none false false []) else none)
        (Quantity.mk (F.fin 0) (F.fin 0))
        [BulletIn.mk 1 Team.player [0, 1] 2]).2).map BulletIn.lifetime = [0]
    ∧ ((bullet_hit_system
        (fun i => if i = 0 then some (Target.mk Team.enemy 5 none false false [])
          else if i = 1 then some (Target.mk Team.enemy 5 none false false []) else none)
        (Quantity.mk (F.fin 0) (F.fin 0))
        [BulletIn.mk 1 Team.player [0, 1] 2]).1).targets 1
        = some (Target.mk Team.enemy 4 (some Team.player) false false []) := by
  refine ⟨rfl, rfl, rfl⟩

/-- The result of a bullet of team `tm` and damage `d` hitting a target:
`last_hit_by` is recorded and health is reduced by saturating subtraction. -/
def Target.hitBy (t : Target) (tm : Team) (d : ℕ) : Target :=
  { t with last_hit_by := some tm, health := t.health - d }

lemma hit_one_collision_applies_hitBy (d : ℕ) (tm : Team) (w : HitWorld) (lt0 : ℚ) (e : ℕ)
    (t : Target) (ht : hit_target_query w.targets e = some t)
    (hsh : tm.should_hurt t.team = true) (hk : e ∉ w.killed) :
    hit_one_collision d tm (w, lt0) e =
      ({ targets := fun i => if i = e then some (t.hitBy tm d) else w.targets i,
         killed := if t.health - d = 0 then e :: w.killed else w.killed,
         hurtEvents := w.hurtEvents ++ [e],
         coherence :=
           if tm = Team.player then w.coherence.adjust_permanent_clearing_temporary (F.fin 0)
           else w.coherence }, 0) :=
  hit_one_collision_applies d tm w lt0 e t ht hsh hk

/-- C4 (amended): once a bullet applies a hit to a valid target, its
lifetime is forced to 0, but the remaining colliding entities are still
evaluated (deliberately, so wide bullets can cleave several targets): for a
bullet whose collision set is two distinct valid enemy targets that both
survive the damage, both targets are hurt and damaged, and the bullet's
lifetime is 0. -/
theorem c4_hit_forces_lifetime (targets : ℕ → Option Target) (coherence : Quantity)
    (e1 e2 : ℕ) (t1 t2 : Target) (d : ℕ) (lt0 : ℚ)
    (h1 : targets e1 = some t1) (h2 : targets e2 = some t2) (hne : e1 ≠ e2)
    (hc1 : t1.isChild = false) (hc2 : t2.isChild = false)
    (htm1 : t1.team = Team.enemy) (htm2 : t2.team = Team.enemy)
    (hh1 : d < t1.health) (hh2 : d < t2.health) :
    ((bullet_hit_system targets coherence [BulletIn.mk d Team.player [e1, e2] lt0]).1).hurtEvents
        = [e1, e2]
    ∧ ((bullet_hit_system targets coherence [BulletIn.mk d Team.player [e1, e2] lt0]).2).map
        BulletIn.lifetime = [0]
    ∧ ((bullet_hit_system targets coherence [BulletIn.mk d Team.player [e1, e2] lt0]).1).targets e1
        = some (t1.hitBy Team.player d)
    ∧ ((bullet_hit_system targets coherence [BulletIn.mk d Team.player [e1, e2] lt0]).1).targets e2
        = some (t2.hitBy Team.player d) := by
  have hq1 : hit_target_query targets e1 = some t1 := hit_target_query_some targets e1 t1 h1 hc1
  have hsh1 : Team.player.should_hurt t1.team = true := by
    rw [htm1]
    rfl
  have hsh2 : Team.player.should_hurt t2.team = true := by
    rw [htm2]
    rfl
  have hnz1 : ¬ (t1.health - d = 0) := Nat.sub_ne_zero_of_lt hh1
  have hnz2 : ¬ (t2.health - d = 0) := Nat.sub_ne_zero_of_lt hh2
  have step1 : hit_one_collision d Team.player (HitWorld.mk targets [] [] coherence, lt0) e1
      = (HitWorld.mk (fun i => if i = e1 then some (t1.hitBy Team.player d) else targets i)
          [] [e1] (coherence.adjust_permanent_clearing_temporary (F.fin 0)), 0) := by
    rw [hit_one_collision_applies_hitBy d Team.player (HitWorld.mk targets [] [] coherence) lt0
      e1 t1 hq1 hsh1 (by simp)]
    simp [hnz1]
  have hq2 : hit_target_query
      (fun i => if i = e1 then some (t1.hitBy Team.player d) else targets i) e2 = some t2 := by
    have hpt : (fun i => if i = e1 then some (t1.hitBy Team.player d) else targets i) e2
        = some t2 := by
      simp [if_neg (Ne.symm hne), h2]
    exact hit_target_query_some _ e2 t2 hpt hc2
  have step2 : hit_one_collision d Team.player
      (HitWorld.mk (fun i => if i = e1 then some (t1.hitBy Team.player d) else targets i)
        [] [e1] (coherence.adjust_permanent_clearing_temporary (F.fin 0)), 0) e2
      = (HitWorld.mk
          (fun i => if i = e2 then some (t2.hitBy Team.player d)
            else if i = e1 then some (t1.hitBy Team.player d) else targets i)
          [] [e1, e2]
          ((coherence.adjust_permanent_clearing_temporary
            (F.fin 0)).adjust_permanent_clearing_temporary (F.fin 0)), 0) := by
    rw [hit_one_collision_applies_hitBy d Team.player _ 0 e2 t2 hq2 hsh2 (by simp)]
    simp [hnz2]
  have hfold : bullet_hit_system targets coherence [BulletIn.mk d Team.player [e1, e2] lt0]
      = (HitWorld.mk
          (fun i => if i = e2 then some (t2.hitBy Team.player d)
            else if i = e1 then some (t1.hitBy Team.player d) else targets i)
          [] [e1, e2]
          ((coherence.adjust_permanent_clearing_temporary
            (F.fin 0)).adjust_permanent_clearing_temporary (F.fin 0)),
         [BulletIn.mk d Team.player [e1, e2] 0]) := by
    show (let s := hit_one_bullet (HitWorld.mk targets [] [] coherence) (BulletIn.mk d Team.player [e1, e2] lt0); (s.1, [] ++ [s.2])) = _
    rw [show hit_one_bullet (HitWorld.mk targets [] [] coherence) (BulletIn.mk d Team.player [e1, e2] lt0) = (let s := hit_one_collision d Team.player (hit_one_collision d Team.player (HitWorld.mk targets [] [] coherence, lt0) e1) e2; (s.1, BulletIn.mk d Team.player [e1, e2] s.2)) from rfl]
    rw [step1, step2]
    rfl
  rw [hfold]
  refine ⟨rfl, rfl, ?_, ?_⟩
  · simp [if_neg hne]
  · simp

/-- C4 (witness): the amended statement at a concrete world with two enemy
targets of health 5 and 7 and a player bullet of damage 1. -/
theorem c4_hit_forces_lifetime_witness :
    ((bullet_hit_system
        (fun i => if i = 0 then some (Target.mk Team.enemy 5 none false false [])
          else if i = 1 then some (Target.mk Team.enemy 7 none false false []) else none)
        (Quantity.mk (F.fin 0) (F.fin 0))
        [BulletIn.mk 1 Team.player [0, 1] 2]).1).hurtEvents = [0, 1]
    ∧ ((bullet_hit_system
        (fun i => if i = 0 then some (Target.mk Team.enemy 5 none false false [])
          else if i = 1 then some (Target.mk Team.enemy 7 none false false []) else none)
        (Quantity.mk (F.fin 0) (F.fin 0))
        [BulletIn.mk 1 Team.player [0, 1] 2]).2).map BulletIn.lifetime = [0]
    ∧ ((bullet_hit_system
        (fun i => if i = 0 then some (Target.mk Team.enemy 5 none false false [])
          else if i = 1 then some (Target.mk Team.enemy 7 none false false []) else none)
        (Quantity.mk (F.fin 0) (F.fin 0))
        [BulletIn.mk 1 Team.player [0, 1] 2]).1).targets 0
        = some ((Target.mk Team.enemy 5 none false false []).hitBy Team.player 1)
    ∧ ((bullet_hit_system
        (fun i => if i = 0 then some (Target.mk Team.enemy 5 none false false [])
          else if i = 1 then some (Target.mk Team.enemy 7 none false false []) else none)
        (Quantity.mk (F.fin 0) (F.fin 0))
        [BulletIn.mk 1 Team.player [0, 1] 2]).1).targets 1
        = some ((Target.mk Team.enemy 7 none false false []).hitBy Team.player 1) :=
  c4_hit_forces_lifetime
    (fun i => if i = 0 then some (Target.mk Team.enemy 5 none false false [])
      else if i = 1 then some (Target.mk Team.enemy 7 none false false []) else none)
    (Quantity.mk (F.fin 0) (F.fin 0)) 0 1
    (Target.mk Team.enemy 5 none false false []) (Target.mk Team.enemy 7 none false false [])
    1 2 rfl rfl (by decide) rfl rfl rfl rfl (by decide) (by decide)

/-- C3 (confirmed): when two bullets' collision sets both contain the same
low-health target (first bullet's damage is enough to kill it), only one hit
is applied: the killed-set mark makes the second bullet's collision with the
already-killed target be skipped, so there is exactly one `Hurt` event, the
target is in the killed set once, and the death sweep — which visits the
entity once — performs exactly one side-effect sequence (one pickup drop
batch, one particle burst, one fervor credit when gating holds, one
despawn). -/
theorem c3_at_most_one_kill
    (targets : ℕ → Option Target) (coherence fever cohQ fervor : Quantity)
    (t0 : ℕ) (tgt : Target) (d1 d2 : ℕ) (l1 l2 : ℚ)
    (ht : targets t0 = some tgt) (hchild : tgt.isChild = false)
    (htm : tgt.team = Team.enemy) (hkill : tgt.health ≤ d1) :
    ((bullet_hit_system targets coherence
        [BulletIn.mk d1 Team.player [t0] l1, BulletIn.mk d2 Team.player [t0] l2]).1).hurtEvents
      = [t0]
    ∧ ((bullet_hit_system targets coherence
        [BulletIn.mk d1 Team.player [t0] l1, BulletIn.mk d2 Team.player [t0] l2]).1).killed
      = [t0]
    ∧ ((bullet_hit_system targets coherence
        [BulletIn.mk d1 Team.player [t0] l1, BulletIn.mk d2 Team.player [t0] l2]).1).targets t0
      = some (tgt.hitBy Team.player d1)
    ∧ (death_system ((bullet_hit_system targets coherence
        [BulletIn.mk d1 Team.player [t0] l1, BulletIn.mk d2 Team.player [t0] l2]).1).targets
        [t0] fever cohQ fervor).2.despawned = [t0]
    ∧ (death_system ((bullet_hit_system targets coherence
        [BulletIn.mk d1 Team.player [t0] l1, BulletIn.mk d2 Team.player [t0] l2]).1).targets
        [t0] fever cohQ fervor).2.dropped = tgt.pickups
    ∧ (death_system ((bullet_hit_system targets coherence
        [BulletIn.mk d1 Team.player [t0] l1, BulletIn.mk d2 Team.player [t0] l2]).1).targets
        [t0] fever cohQ fervor).2.particles
      = (if tgt.destruction_particle then [t0] else [])
    ∧ (fervor_is_active fever cohQ = true →
        (death_system ((bullet_hit_system targets coherence
          [BulletIn.mk d1 Team.player [t0] l1, BulletIn.mk d2 Team.player [t0] l2]).1).targets
          [t0] fever cohQ fervor).1
        = fervor.adjust_temporary_stacking_with_previous
            ((F.fin (301/10000)).add
              ((F.fin (3/100)).mul (fervor.temporary_stack.fmax (F.fin (2/5))))))
    ∧ (fervor_is_active fever cohQ = false →
        (death_system ((bullet_hit_system targets coherence
          [BulletIn.mk d1 Team.player [t0] l1, BulletIn.mk d2 Team.player [t0] l2]).1).targets
          [t0] fever cohQ fervor).1
        = fervor) := by
  have hq1 : hit_target_query targets t0 = some tgt :=
    hit_target_query_some targets t0 tgt ht hchild
  have hsh : Team.player.should_hurt tgt.team = true := by
    rw [htm]
    rfl
  have hz : tgt.health - d1 = 0 := Nat.sub_eq_zero_of_le hkill
  have step1 : hit_one_collision d1 Team.player (HitWorld.mk targets [] [] coherence, l1) t0
      = (HitWorld.mk (fun i => if i = t0 then some (tgt.hitBy Team.player d1) else targets i)
          [t0] [t0] (coherence.adjust_permanent_clearing_temporary (F.fin 0)), 0) := by
    rw [hit_one_collision_applies_hitBy d1 Team.player (HitWorld.mk targets [] [] coherence)
      l1 t0 tgt hq1 hsh (by simp)]
    simp [hz]
  have step2 : hit_one_collision d2 Team.player
      (HitWorld.mk (fun i => if i = t0 then some (tgt.hitBy Team.player d1) else targets i)
        [t0] [t0] (coherence.adjust_permanent_clearing_temporary (F.fin 0)), l2) t0
      = (HitWorld.mk (fun i => if i = t0 then some (tgt.hitBy Team.player d1) else targets i)
          [t0] [t0] (coherence.adjust_permanent_clearing_temporary (F.fin 0)), l2) := by
    refine hit_one_collision_skip_killed d2 Team.player _ l2 t0 (tgt.hitBy Team.player d1) ?_ ?_
    · refine hit_target_query_some _ t0 (tgt.hitBy Team.player d1) (by simp) ?_
      simpa [Target.hitBy] using hchild
    · simp
  have hb1 : hit_one_bullet (HitWorld.mk targets [] [] coherence)
      (BulletIn.mk d1 Team.player [t0] l1)
      = (HitWorld.mk (fun i => if i = t0 then some (tgt.hitBy Team.player d1) else targets i)
          [t0] [t0] (coherence.adjust_permanent_clearing_temporary (F.fin 0)),
         BulletIn.mk d1 Team.player [t0] 0) := by
    show (let s := hit_one_collision d1 Team.player (HitWorld.mk targets [] [] coherence, l1) t0; (s.1, BulletIn.mk d1 Team.player [t0] s.2)) = _
    rw [step1]
  have hb2 : hit_one_bullet
      (HitWorld.mk (fun i => if i = t0 then some (tgt.hitBy Team.player d1) else targets i)
        [t0] [t0] (coherence.adjust_permanent_clearing_temporary (F.fin 0)))
      (BulletIn.mk d2 Team.player [t0] l2)
      = (HitWorld.mk (fun i => if i = t0 then some (tgt.hitBy Team.player d1) else targets i)
          [t0] [t0] (coherence.adjust_permanent_clearing_temporary (F.fin 0)),
         BulletIn.mk d2 Team.player [t0] l2) := by
    show (let s := hit_one_collision d2 Team.player (HitWorld.mk (fun i => if i = t0 then some (tgt.hitBy Team.player d1) else targets i) [t0] [t0] (coherence.adjust_permanent_clearing_temporary (F.fin 0)), l2) t0; (s.1, BulletIn.mk d2 Team.player [t0] s.2)) = _
    rw [step2]
  have hfold : bullet_hit_system targets coherence
      [BulletIn.mk d1 Team.player [t0] l1, BulletIn.mk d2 Team.player [t0] l2]
      = (HitWorld.mk (fun i => if i = t0 then some (tgt.hitBy Team.player d1) else targets i)
          [t0] [t0] (coherence.adjust_permanent_clearing_temporary (F.fin 0)),
         [BulletIn.mk d1 Team.player [t0] 0, BulletIn.mk d2 Team.player [t0] l2]) := by
    simp only [bullet_hit_system, List.foldl, hb1, hb2]
    rfl
  have hwt : (fun i => if i = t0 then some (tgt.hitBy Team.player d1) else targets i) t0
      = some (tgt.hitBy Team.player d1) := by simp
  have hhealth : (tgt.hitBy Team.player d1).health = 0 := by
    simpa [Target.hitBy] using hz
  have hlast : (tgt.hitBy Team.player d1).last_hit_by = some Team.player := rfl
  have hchild2 : (tgt.hitBy Team.player d1).isChild = false := by
    simpa [Target.hitBy] using hchild
  rw [hfold]
  have hnl : ¬ (d1 < tgt.health) := not_lt.mpr hkill
  refine ⟨rfl, rfl, by simp, ?_, ?_, ?_, ?_, ?_⟩
  · by_cases hact : fervor_is_active fever cohQ = true <;>
      by_cases hdp : tgt.destruction_particle = true <;>
      simp [death_system, List.foldl, death_one, Target.hitBy, hchild, hnl, hact, hdp]
  · by_cases hact : fervor_is_active fever cohQ = true <;>
      by_cases hdp : tgt.destruction_particle = true <;>
      simp [death_system, List.foldl, death_one, Target.hitBy, hchild, hnl, hact, hdp]
  · by_cases hact : fervor_is_active fever cohQ = true <;>
      by_cases hdp : tgt.destruction_particle = true <;>
      simp [death_system, List.foldl, death_one, Target.hitBy, hchild, hnl, hact, hdp]
  · intro hact
    by_cases hdp : tgt.destruction_particle = true <;>
      simp [death_system, List.foldl, death_one, Target.hitBy, hchild, hnl, hact, hdp]
  · intro hact
    by_cases hdp : tgt.destruction_particle = true <;>
      simp [death_system, List.foldl, death_one, Target.hitBy, hchild, hnl, hact, hdp]

/-- C3 (witness): the at-most-one-kill property at a concrete world — two
player bullets of damage 3 and 1 both colliding with one enemy target of
health 2 that carries pickup 9 and a destruction particle. -/
theorem c3_at_most_one_kill_witness :
    ((bullet_hit_system
        (fun i => if i = 4 then some (Target.mk Team.enemy 2 none false true [9]) else none)
        (Quantity.mk (F.fin 0) (F.fin 0))
        [BulletIn.mk 3 Team.player [4] 2, BulletIn.mk 1 Team.player [4] 2]).1).hurtEvents = [4]
    ∧ ((bullet_hit_system
        (fun i => if i = 4 then some (Target.mk Team.enemy 2 none false true [9]) else none)
        (Quantity.mk (F.fin 0) (F.fin 0))
        [BulletIn.mk 3 Team.player [4] 2, BulletIn.mk 1 Team.player [4] 2]).1).killed = [4]
    ∧ ((bullet_hit_system
        (fun i => if i = 4 then some (Target.mk Team.enemy 2 none false true [9]) else none)
        (Quantity.mk (F.fin 0) (F.fin 0))
        [BulletIn.mk 3 Team.player [4] 2, BulletIn.mk 1 Team.player [4] 2]).1).targets 4
        = some ((Target.mk Team.enemy 2 none false true [9]).hitBy Team.player 3)
    ∧ (death_system ((bullet_hit_system
        (fun i => if i = 4 then some (Target.mk Team.enemy 2 none false true [9]) else none)
        (Quantity.mk (F.fin 0) (F.fin 0))
        [BulletIn.mk 3 Team.player [4] 2, BulletIn.mk 1 Team.player [4] 2]).1).targets
        [4] (Quantity.mk (F.fin 0) (F.fin 0)) (Quantity.mk (F.fin 1) (F.fin 0))
        (Quantity.mk (F.fin 0) (F.fin 0))).2.despawned = [4]
    ∧ (death_system ((bullet_hit_system
        (fun i => if i = 4 then some (Target.mk Team.enemy 2 none false true [9]) else none)
        (Quantity.mk (F.fin 0) (F.fin 0))
        [BulletIn.mk 3 Team.player [4] 2, BulletIn.mk 1 Team.player [4] 2]).1).targets
        [4] (Quantity.mk (F.fin 0) (F.fin 0)) (Quantity.mk (F.fin 1) (F.fin 0))
        (Quantity.mk (F.fin 0) (F.fin 0))).2.dropped = [9]
    ∧ (death_system ((bullet_hit_system
        (fun i => if i = 4 then some (Target.mk Team.enemy 2 none false true [9]) else none)
        (Quantity.mk (F.fin 0) (F.fin 0))
        [BulletIn.mk 3 Team.player [4] 2, BulletIn.mk 1 Team.player [4] 2]).1).targets
        [4] (Quantity.mk (F.fin 0) (F.fin 0)) (Quantity.mk (F.fin 1) (F.fin 0))
        (Quantity.mk (F.fin 0) (F.fin 0))).2.particles
        = (if (Target.mk Team.enemy 2 none false true [9]).destruction_particle then [4] else [])
    ∧ (fervor_is_active (Quantity.mk (F.fin 0) (F.fin 0)) (Quantity.mk (F.fin 1) (F.fin 0)) = true →
        (death_system ((bullet_hit_system
          (fun i => if i = 4 then some (Target.mk Team.enemy 2 none false true [9]) else none)
          (Quantity.mk (F.fin 0) (F.fin 0))
          [BulletIn.mk 3 Team.player [4] 2, BulletIn.mk 1 Team.player [4] 2]).1).targets
          [4] (Quantity.mk (F.fin 0) (F.fin 0)) (Quantity.mk (F.fin 1) (F.fin 0))
          (Quantity.mk (F.fin 0) (F.fin 0))).1
        = (Quantity.mk (F.fin 0) (F.fin 0)).adjust_temporary_stacking_with_previous
            ((F.fin (301/10000)).add
              ((F.fin (3/100)).mul
                ((Quantity.mk (F.fin 0) (F.fin 0)).temporary_stack.fmax (F.fin (2/5))))))
    ∧ (fervor_is_active (Quantity.mk (F.fin 0) (F.fin 0)) (Quantity.mk (F.fin 1) (F.fin 0)) = false →
        (death_system ((bullet_hit_system
          (fun i => if i = 4 then some (Target.mk Team.enemy 2 none false true [9]) else none)
          (Quantity.mk (F.fin 0) (F.fin 0))
          [BulletIn.mk 3 Team.player [4] 2, BulletIn.mk 1 Team.player [4] 2]).1).targets
          [4] (Quantity.mk (F.fin 0) (F.fin 0)) (Quantity.mk (F.fin 1) (F.fin 0))
          (Quantity.mk (F.fin 0) (F.fin 0))).1
        = Quantity.mk (F.fin 0) (F.fin 0)) :=
  c3_at_most_one_kill
    (fun i => if i = 4 then some (Target.mk Team.enemy 2 none false true [9]) else none)
    (Quantity.mk (F.fin 0) (F.fin 0)) (Quantity.mk (F.fin 0) (F.fin 0))
    (Quantity.mk (F.fin 1) (F.fin 0)) (Quantity.mk (F.fin 0) (F.fin 0))
    4 (Target.mk Team.enemy 2 none false true [9]) 3 1 2 2 rfl rfl rfl (by decide)

lemma hit_one_collision_skip_team (d : ℕ) (tm : Team) (w : HitWorld) (lt0 : ℚ) (e : ℕ)
    (t : Target) (ht : hit_target_query w.targets e = some t)
    (hsh : tm.should_hurt t.team = false) :
    hit_one_collision d tm (w, lt0) e = (w, lt0) := by
  simp [hit_one_collision, ht, hsh]

lemma child_preserved_collision (d : ℕ) (tm : Team) (e : ℕ) (t : Target) (hc : t.isChild = true)
    (s : HitWorld × ℚ) (he : s.1.targets e = some t) (hh : e ∉ s.1.hurtEvents) (c : ℕ) :
    ((hit_one_collision d tm s c).1.targets e = some t)
    ∧ e ∉ (hit_one_collision d tm s c).1.hurtEvents := by
  obtain ⟨w, lt0⟩ := s
  have hw : w.targets e = some t := he
  have hwh : e ∉ w.hurtEvents := hh
  cases hq : hit_target_query w.targets c with
  | none =>
    rw [hit_one_collision_skip_query d tm w lt0 c hq]
    exact ⟨hw, hwh⟩
  | some tc =>
    by_cases hsh : tm.should_hurt tc.team = true
    · by_cases hk : c ∈ w.killed
      · rw [hit_one_collision_skip_killed d tm w lt0 c tc hq hk]
        exact ⟨hw, hwh⟩
      · have hne : e ≠ c := by
          intro hec
          subst hec
          simp [hit_target_query, hw, hc] at hq
        rw [hit_one_collision_applies d tm w lt0 c tc hq hsh hk]
        constructor
        · simpa [if_neg hne] using hw
        · simp [List.mem_append, hwh, hne]
    · have hsh2 : tm.should_hurt tc.team = false := by
        simpa using hsh
      rw [hit_one_collision_skip_team d tm w lt0 c tc hq hsh2]
      exact ⟨hw, hwh⟩

lemma child_preserved_collisions (d : ℕ) (tm : Team) (e : ℕ) (t : Target) (hc : t.isChild = true)
    (cs : List ℕ) :
    ∀ (s : HitWorld × ℚ), s.1.targets e = some t → e ∉ s.1.hurtEvents →
      ((cs.foldl (hit_one_collision d tm) s).1.targets e = some t)
      ∧ e ∉ (cs.foldl (hit_one_collision d tm) s).1.hurtEvents := by
  induction cs with
  | nil => exact fun s h1 h2 => ⟨h1, h2⟩
  | cons c rest ih =>
    intro s h1 h2
    have hstep := child_preserved_collision d tm e t hc s h1 h2 c
    exact ih (hit_one_collision d tm s c) hstep.1 hstep.2

lemma child_preserved_hit_system (targets : ℕ → Option Target) (coherence : Quantity)
    (bullets : List BulletIn) (e : ℕ) (t : Target)
    (ht : targets e = some t) (hc : t.isChild = true) :
    ((bullet_hit_system targets coherence bullets).1).targets e = some t
    ∧ e ∉ ((bullet_hit_system targets coherence bullets).1).hurtEvents := by
  suffices h : ∀ (bs : List BulletIn) (acc : HitWorld × List BulletIn),
      acc.1.targets e = some t → e ∉ acc.1.hurtEvents →
      ((bs.foldl (fun acc b => let s := hit_one_bullet acc.1 b; (s.1, acc.2 ++ [s.2])) acc).1.targets e
          = some t)
      ∧ e ∉ (bs.foldl (fun acc b => let s := hit_one_bullet acc.1 b; (s.1, acc.2 ++ [s.2])) acc).1.hurtEvents by
    exact h bullets (HitWorld.mk targets [] [] coherence, []) ht (by simp)
  intro bs
  induction bs with
  | nil => exact fun acc h1 h2 => ⟨h1, h2⟩
  | cons b rest ih =>
    intro acc h1 h2
    have hstep := child_preserved_collisions b.damage b.team e t hc b.colliding
      (acc.1, b.lifetime) h1 h2
    exact ih _ hstep.1 hstep.2

lemma death_child_not_despawned (targets : ℕ → Option Target) (e : ℕ) (t : Target)
    (ht : targets e = some t) (hc : t.isChild = true) (changed : List ℕ)
    (fever cohQ fervor : Quantity) :
    e ∉ (death_system targets changed fever cohQ fervor).2.despawned := by
  suffices h : ∀ (cs : List ℕ) (acc : Quantity × DeathEffects), e ∉ acc.2.despawned →
      e ∉ (cs.foldl (death_one targets fever cohQ) acc).2.despawned by
    exact h changed _ (by simp)
  intro cs
  induction cs with
  | nil => exact fun acc h => h
  | cons c rest ih =>
    intro acc hacc
    refine ih _ ?_
    by_cases hce : c = e
    · subst hce
      simpa [death_one, ht, hc] using hacc
    · cases hq : targets c with
      | none => simpa [death_one, hq] using hacc
      | some tc =>
        by_cases hic : tc.isChild = true
        · simpa [death_one, hq, hic] using hacc
        · by_cases hhp : tc.health > 0
          · simpa [death_one, hq, hic, hhp] using hacc
          · by_cases hdp : tc.destruction_particle = true
            · simp [death_one, hq, hic, hhp, hdp, List.mem_append]
              exact ⟨hacc, fun hec => hce hec.symm⟩
            · simp [death_one, hq, hic, hhp, hdp, List.mem_append]
              exact ⟨hacc, fun hec => hce hec.symm⟩

/-- C10 (confirmed): both the hit-resolution target query and the death
sweep exclude entities with a `ChildOf` relationship, so a colliding entity
that is a child (for example, a pickup still carried by an enemy) suffers no
health change or hit attribution, receives no `Hurt` notification, and is
never despawned by the death sweep, regardless of teams. -/
theorem c10_child_entities_untouched (targets : ℕ → Option Target) (coherence : Quantity)
    (bullets : List BulletIn) (e : ℕ) (t : Target)
    (ht : targets e = some t) (hc : t.isChild = true)
    (changed : List ℕ) (fever cohQ fervor : Quantity) :
    ((bullet_hit_system targets coherence bullets).1).targets e = some t
    ∧ e ∉ ((bullet_hit_system targets coherence bullets).1).hurtEvents
    ∧ e ∉ (death_system ((bullet_hit_system targets coherence bullets).1).targets changed fever
        cohQ fervor).2.despawned := by
  have h1 := child_preserved_hit_system targets coherence bullets e t ht hc
  exact ⟨h1.1, h1.2,
    death_child_not_despawned _ e t h1.1 hc changed fever cohQ fervor⟩

/-- C10 (witness): a concrete child target (a carried pickup) colliding with
a hostile bullet is left untouched by hit resolution and the death sweep. -/
theorem c10_child_entities_untouched_witness :
    ((bullet_hit_system
        (fun i => if i = 0 then some (Target.mk Team.enemy 3 none true false []) else none)
        (Quantity.mk (F.fin 0) (F.fin 0)) [BulletIn.mk 2 Team.player [0] 1]).1).targets 0
        = some (Target.mk Team.enemy 3 none true false [])
    ∧ 0 ∉ ((bullet_hit_system
        (fun i => if i = 0 then some (Target.mk Team.enemy 3 none true false []) else none)
        (Quantity.mk (F.fin 0) (F.fin 0)) [BulletIn.mk 2 Team.player [0] 1]).1).hurtEvents
    ∧ 0 ∉ (death_system ((bullet_hit_system
        (fun i => if i = 0 then some (Target.mk Team.enemy 3 none true false []) else none)
        (Quantity.mk (F.fin 0) (F.fin 0)) [BulletIn.mk 2 Team.player [0] 1]).1).targets [0]
        (Quantity.mk (F.fin 0) (F.fin 0)) (Quantity.mk (F.fin 1) (F.fin 0))
        (Quantity.mk (F.fin 0) (F.fin 0))).2.despawned :=
  c10_child_entities_untouched
    (fun i => if i = 0 then some (Target.mk Team.enemy 3 none true false []) else none)
    (Quantity.mk (F.fin 0) (F.fin 0)) [BulletIn.mk 2 Team.player [0] 1] 0
    (Target.mk Team.enemy 3 none true false []) rfl rfl [0]
    (Quantity.mk (F.fin 0) (F.fin 0)) (Quantity.mk (F.fin 1) (F.fin 0))
    (Quantity.mk (F.fin 0) (F.fin 0))
